import Mathlib

/-!
Verification of the account-identity core of the forge user service
(`biz/service/userservice`): login, registration, verification-code
issuance and consumption, contact binding/unbinding, and the
SSRF-hardened avatar-URL validator.

The Go service is shallowly embedded: each method becomes a pure Lean
function over an explicit service state (user repository contents plus
the TTL code store), and external collaborators (password hashing,
password-strength policy, token issuance, code dispatch, URL parsing,
DNS resolution) are supplied as an `Env` of oracles, matching the
interfaces the service consumes.
-/

deriving instance DecidableEq for Except

/-- Error values of the user service, one constructor per `errors.New`
sentinel in the source (`ErrEmailAlreadyInUse` is an alias of
`ErrAccountAlreadyInUse` in the source, so it is the same constructor). -/
inductive Err where
  | invalidParams
  | userNotFound
  | userAlreadyExists
  | passwordMismatch
  | credentialsIncorrect
  | unsupportedAccountType
  | internalError
  | permissionDenied
  | verificationCodeIncorrect
  | accountAlreadyInUse
  | passwordRequired
  | cannotUnbindOnlyContact
  | policyViolation
  deriving Repr, DecidableEq

/-- Modelled from the spec: the `entity` package is not in the sources;
§3 gives the account lifecycle status as `active | disabled`. -/
inductive UserStatus where
  | active
  | disabled
  deriving Repr, DecidableEq

/-- Modelled from the spec: the `entity.User` record (the `entity`
package is not in the sources); fields are those the service reads and
writes (§3 data model). -/
structure User where
  userID : String
  userName : String
  password : String
  phone : String
  phoneVerified : Bool
  email : String
  emailVerified : Bool
  status : UserStatus
  avatar : String
  deriving Repr, DecidableEq

/-- The TTL code store as a key-value association list. Modelled from
the spec: the `infra/cache` package is not in the sources; §6 gives the
contract `set(key, value, ttl)`, `get(key) -> value|empty`,
`delete(key)`, each per-key atomic.  Expiry is not modelled (no claim
is about the passage of time). -/
abbrev Store : Type := List (String × String)

/-- `cache.SetRedis`: bind `k` to `v`, replacing any previous binding. -/
def setRedis (k v : String) (st : Store) : Store :=
  (k, v) :: st.filter (fun p => p.1 != k)

/-- `cache.DelRedis`: remove the binding of `k`. -/
def delRedis (k : String) (st : Store) : Store :=
  st.filter (fun p => p.1 != k)

/-- `cache.GetRedis`: the value bound to `k`, or `""` when absent
(spec §6: `get(key) -> value|empty`). -/
def getRedis (k : String) (st : Store) : String :=
  ((st.find? (fun p => p.1 == k)).map Prod.snd).getD ""

/-- Modelled from the spec: `constant.REDIS_VERIFICATION_CODE_KEY` is
not in the sources; the source builds the store key as
`fmt.Sprintf(constant.REDIS_VERIFICATION_CODE_KEY, account)`, a format
filled with the account identifier alone (§3: codes are keyed by the
target identifier string). -/
def redisVerificationCodeKey (account : String) : String :=
  "verification_code:" ++ account

/-- Repository query by phone (`repo.NewUserQueryByPhone` + `GetUser`).
Modelled from the spec: the repository implementation is not in the
sources; §6 gives `find(by-phone) -> Account|not-found`. -/
def findByPhone (users : List User) (account : String) : Option User :=
  users.find? (fun u => u.phone == account)

/-- Repository query by email (`repo.NewUserQueryByEmail` + `GetUser`). -/
def findByEmail (users : List User) (account : String) : Option User :=
  users.find? (fun u => u.email == account)

/-- Repository query by user ID (`repo.NewUserQueryByID` + `GetUser`). -/
def findByID (users : List User) (userID : String) : Option User :=
  users.find? (fun u => u.userID == userID)

/-- `findUserByAccount`: dispatch on the account type, then query the
repository; `nil` result becomes `ErrUserNotFound`, an unsupported type
becomes `ErrUnsupportedAccountType` (repository errors are not modelled:
the repository oracle never fails). -/
def findUserByAccount (users : List User) (account accountType : String) :
    Except Err User :=
  match accountType with
  | "phone" =>
    match findByPhone users account with
    | some u => .ok u
    | none => .error .userNotFound
  | "email" =>
    match findByEmail users account with
    | some u => .ok u
    | none => .error .userNotFound
  | _ => .error .unsupportedAccountType

/-- The mutable state the service operations act on: the persisted
user records and the verification-code store. -/
structure SvcState where
  users : List User
  store : Store
  deriving Repr, DecidableEq

/-- `VerifyCode` (source lines 451-481): reject empty identifier or
code, look the code up under the identifier-derived key, absent or
mismatching stored value is `ErrVerificationCodeIncorrect`, and on a
match delete the record (single use) and succeed.  The `accountType`
argument is accepted but never read, exactly as in the source. -/
def verifyCode (s : SvcState) (account accountType code : String) :
    Except Err Unit × SvcState :=
  if account == "" || code == "" then (.error .invalidParams, s)
  else
    let key := redisVerificationCodeKey account
    let storedCode := getRedis key s.store
    if storedCode == "" then (.error .verificationCodeIncorrect, s)
    else if storedCode != code then (.error .verificationCodeIncorrect, s)
    else (.ok (), { s with store := delRedis key s.store })

lemma getRedis_setRedis_self (k v : String) (st : Store) :
    getRedis k (setRedis k v st) = v := by
  simp [getRedis, setRedis, List.find?]

lemma find?_filter_ne (k k' : String) (st : Store) (h : k' ≠ k) :
    (st.filter (fun p => p.1 != k)).find? (fun p => p.1 == k') =
      st.find? (fun p => p.1 == k') := by
  induction st with
  | nil => rfl
  | cons hd tl ih =>
    by_cases hk : hd.1 = k
    · have h1 : (hd.1 != k) = false := by simp [hk]
      have h2 : (hd.1 == k') = false := by simp [hk, Ne.symm h]
      simp [List.filter_cons, h1, List.find?, h2, ih]
    · have h1 : (hd.1 != k) = true := by simp [hk]
      by_cases hk' : hd.1 = k'
      · simp [List.filter_cons, h1, List.find?, hk', h]
      · have h2 : (hd.1 == k') = false := by simp [hk']
        simp [List.filter_cons, h1, List.find?, h2, ih]

lemma getRedis_setRedis_ne (k k' v : String) (st : Store) (h : k' ≠ k) :
    getRedis k' (setRedis k v st) = getRedis k' st := by
  have h2 : (k == k') = false := by simp [Ne.symm h]
  simp [getRedis, setRedis, List.find?, h2, find?_filter_ne k k' st h]

lemma getRedis_delRedis_self (k : String) (st : Store) :
    getRedis k (delRedis k st) = "" := by
  have : (st.filter (fun p => p.1 != k)).find? (fun p => p.1 == k) = none := by
    rw [List.find?_eq_none]
    intro p hp
    have := List.of_mem_filter hp
    simpa using this
  simp [getRedis, delRedis, this]

lemma getRedis_delRedis_ne (k k' : String) (st : Store) (h : k' ≠ k) :
    getRedis k' (delRedis k st) = getRedis k' st := by
  simp [getRedis, delRedis, find?_filter_ne k k' st h]

/-! ### IP addresses and the SSRF guard

`net.IP` values are modelled as IPv4 quads or IPv6 byte sequences; the
Go standard-library classification methods used by `isPrivateIP` are
embedded following their documented semantics (all of them first try
`To4`, so IPv4-mapped IPv6 addresses classify as their IPv4 form). -/

/-- A resolved or literal IP address: an IPv4 quad or the 16 bytes of
an IPv6 address. -/
inductive IP where
  | v4 (a b c d : Nat)
  | v6 (bytes : List Nat)
  deriving Repr, DecidableEq

/-- `net.IP.To4`: the IPv4 form, when the address is IPv4 or an
IPv4-mapped IPv6 address (`::ffff:a.b.c.d`). -/
def ipTo4 : IP → Option (Nat × Nat × Nat × Nat)
  | .v4 a b c d => some (a, b, c, d)
  | .v6 bytes =>
    if bytes.length == 16 && (bytes.take 10).all (· == 0) &&
        bytes.getD 10 0 == 0xff && bytes.getD 11 0 == 0xff then
      some (bytes.getD 12 0, bytes.getD 13 0, bytes.getD 14 0, bytes.getD 15 0)
    else none

/-- `net.IP.IsLoopback`: `127.0.0.0/8` or `::1`. -/
def ipIsLoopback (ip : IP) : Bool :=
  match ipTo4 ip with
  | some (a, _, _, _) => a == 127
  | none =>
    match ip with
    | .v4 _ _ _ _ => false
    | .v6 bytes => bytes == List.replicate 15 0 ++ [1]

/-- `net.IP.IsLinkLocalUnicast`: `169.254.0.0/16` or `fe80::/10`. -/
def ipIsLinkLocalUnicast (ip : IP) : Bool :=
  match ipTo4 ip with
  | some (a, b, _, _) => a == 169 && b == 254
  | none =>
    match ip with
    | .v4 _ _ _ _ => false
    | .v6 bytes =>
      bytes.length == 16 && bytes.getD 0 0 == 0xfe &&
        bytes.getD 1 0 &&& 0xc0 == 0x80

/-- `net.IP.IsPrivate`: `10.0.0.0/8`, `172.16.0.0/12`, `192.168.0.0/16`
or `fc00::/7`. -/
def ipIsPrivate (ip : IP) : Bool :=
  match ipTo4 ip with
  | some (a, b, _, _) =>
    a == 10 || (a == 172 && b &&& 0xf0 == 16) || (a == 192 && b == 168)
  | none =>
    match ip with
    | .v4 _ _ _ _ => false
    | .v6 bytes => bytes.length == 16 && bytes.getD 0 0 &&& 0xfe == 0xfc

/-- `net.IP.IsMulticast`: `224.0.0.0/4` or `ff00::/8`. -/
def ipIsMulticast (ip : IP) : Bool :=
  match ipTo4 ip with
  | some (a, _, _, _) => a &&& 0xf0 == 0xe0
  | none =>
    match ip with
    | .v4 _ _ _ _ => false
    | .v6 bytes => bytes.length == 16 && bytes.getD 0 0 == 0xff

/-- `net.IP.IsUnspecified`: `0.0.0.0` or `::`. -/
def ipIsUnspecified (ip : IP) : Bool :=
  match ipTo4 ip with
  | some (a, b, c, d) => a == 0 && b == 0 && c == 0 && d == 0
  | none =>
    match ip with
    | .v4 _ _ _ _ => false
    | .v6 bytes => bytes.length == 16 && bytes.all (· == 0)

/-- The reserved `0.0.0.0/8` range (first IPv4 byte zero), which the
source rejects beyond the single unspecified address. -/
def ipInZeroNet (ip : IP) : Bool :=
  match ipTo4 ip with
  | some (a, _, _, _) => a == 0
  | none => false

/-- `isPrivateIP` (source lines 893-911): loopback, link-local unicast,
private, or multicast is rejected; otherwise an IPv4 form with first
byte `0` (the whole `0.0.0.0/8`) is rejected; otherwise an IPv6
unspecified address is rejected.  (The source's `ip == nil` guard has
no counterpart: the oracles never produce a nil address.) -/
def isPrivateIP (ip : IP) : Bool :=
  if ipIsLoopback ip || ipIsLinkLocalUnicast ip || ipIsPrivate ip ||
      ipIsMulticast ip then
    true
  else
    match ipTo4 ip with
    | some (a, _, _, _) => a == 0
    | none => ipIsUnspecified ip

/-! ### String helpers mirroring the Go standard library calls -/

/-- `strings.ToLower` restricted to ASCII, which is all the validator
compares against. -/
def toLowerStr (s : String) : String :=
  String.mk (s.toList.map Char.toLower)

/-- Whether `pat` occurs as a contiguous sublist of the list. -/
def subListOccurs (pat : List Char) : List Char → Bool
  | [] => pat.isEmpty
  | c :: rest => pat.isPrefixOf (c :: rest) || subListOccurs pat rest

/-- `strings.Contains s pat`. -/
def containsSub (s pat : String) : Bool :=
  subListOccurs pat.toList s.toList

/-- `strings.Split` with a single-character separator: splitting the
empty string yields one empty field, as in Go. -/
def splitOnChar (sep : Char) : List Char → List (List Char)
  | [] => [[]]
  | c :: rest =>
    let r := splitOnChar sep rest
    if c = sep then [] :: r
    else
      match r with
      | [] => [[c]]
      | h :: t => (c :: h) :: t

/-- `strings.Trim s "/"`: strip leading and trailing slashes. -/
def trimSlashes (l : List Char) : List Char :=
  ((l.dropWhile (· = '/')).reverse.dropWhile (· = '/')).reverse

/-- The trailing path segment the validator inspects:
`strings.Split(strings.Trim(path, "/"), "/")` and take the last
element (Go's split always yields at least one element). -/
def lastPathSegment (path : String) : List Char :=
  (splitOnChar '/' (trimSlashes path.toList)).getLastD []

/-- `path.Ext`: the suffix of the last path element starting at its
final dot, or empty when there is no dot (the argument here never
contains a slash). -/
def pathExt (fileName : List Char) : List Char :=
  let rev := fileName.reverse
  if rev.contains '.' then ((rev.takeWhile (· ≠ '.')) ++ ['.']).reverse
  else []

/-! ### The avatar URL validator -/

/-- The outcome of `url.Parse` as the validator consumes it: the
`url.URL` fields it reads, with `hostname` standing for the
`Hostname()` accessor (host with port and IPv6 brackets stripped) and
`queryParams` for the decoded `Query()` multimap. -/
structure ParsedURL where
  scheme : String
  host : String
  hostname : String
  path : String
  rawQuery : String
  queryParams : List (String × String)
  fragment : String
  deriving Repr, DecidableEq

/-- `url.Values.Get`: first value for the key, or empty. -/
def queryGet (u : ParsedURL) (k : String) : String :=
  ((u.queryParams.find? (fun p => p.1 == k)).map Prod.snd).getD ""

/-- Failure cases of `validateAvatarURL`, one per `fmt.Errorf` site. -/
inductive UrlErr where
  | tooLong
  | unparseable
  | badScheme
  | emptyHost
  | badHostChars
  | privateAddress
  | resolveFailed
  | noAddresses
  | resolvedPrivate
  | dangerousPath
  | hasFragment
  | fileNameTooLong
  | dangerousFileName
  deriving Repr, DecidableEq

/-- The external collaborators of the service, supplied as oracles:
`util` password hashing/policy (not in the sources), the JWT issuer,
the code dispatcher adapter, and the Go standard library's URL parser,
IP-literal parser and DNS resolver.  A random 6-digit code sample and
the ambient authenticated user are passed to the operations directly. -/
structure Env where
  validatePasswordStrength : String → Option Err
  hashPassword : String → Option String
  comparePassword : String → String → Option Bool
  generateToken : String → Option String
  generateID : Option String
  sendEmailCode : String → String → Bool
  sendSMSCode : String → String → Bool
  parseURL : String → Option ParsedURL
  parseIP : String → Option IP
  lookupIP : String → Option (List IP)

/-- The allowed image extensions of step 9 of the validator. -/
def allowedExtensions : List String :=
  [".jpg", ".jpeg", ".png", ".gif", ".webp", ".bmp", ".svg"]

/-- Step 9 of `validateAvatarURL`: whether the URL carries a
recognizable image-format marker, in the trailing path segment's
extension or in the `format`/`type`/`mime`/`ext` query parameters.
In the source this value only selects a warning log line; it never
affects the verdict, so `validateAvatarURL` below does not branch on
it. -/
def hasImageFormatHint (u : ParsedURL) : Bool :=
  let fileName := lastPathSegment u.path
  let validImageFormats := allowedExtensions.map (fun e => String.mk (e.toList.drop 1))
  let fromPath :=
    if fileName.isEmpty then false
    else
      let fileExt := toLowerStr (String.mk (pathExt fileName))
      allowedExtensions.any (fun e => fileExt == e)
  if fromPath then true
  else if u.rawQuery == "" then false
  else
    let fmtParam := toLowerStr (queryGet u "format")
    if fmtParam != "" && validImageFormats.any (fun f => fmtParam == f) then true
    else if toLowerStr (queryGet u "type") == "image" then true
    else if containsSub (toLowerStr (queryGet u "mime")) "image" then true
    else
      let extParam := toLowerStr (queryGet u "ext")
      extParam != "" && validImageFormats.any (fun f => extParam == f)

/-- The characters step 10 of the validator refuses in a file name. -/
def dangerousFileChars : List Char :=
  ['<', '>', '|', '"', '*', '\\', '\x00']

/-- Steps 7-10 of `validateAvatarURL` (the checks after the SSRF
boundary), split out of the main definition: path-traversal guard,
fragment refusal, and the trailing-segment length and character
checks.  Step 9's image-format hint is computed by
`hasImageFormatHint` and only logged in the source, so it does not
appear here. -/
def validateURLTail (u : ParsedURL) : Option UrlErr :=
  if containsSub u.path ".." || containsSub u.path "//" then some .dangerousPath
  else if u.fragment != "" then some .hasFragment
  else
    let fileName := lastPathSegment u.path
    if fileName.isEmpty then none
    else if fileName.length > 255 then some .fileNameTooLong
    else if fileName.any (fun c => dangerousFileChars.contains c) then
      some .dangerousFileName
    else none

/-- `validateAvatarURL` (source lines 717-890): length ceiling, URL
parse, scheme allow-list, non-empty host, host double-slash guard,
then the SSRF boundary — an IP-literal host is checked directly with
`isPrivateIP`, a domain host is resolved and every resolved address
checked, with resolution failure or an empty answer rejected — and
finally the path/fragment/file-name checks of `validateURLTail`.
`none` means the URL is accepted. -/
def validateAvatarURL (env : Env) (avatarURL : String) : Option UrlErr :=
  if avatarURL.length > 2048 then some .tooLong
  else
    match env.parseURL avatarURL with
    | none => some .unparseable
    | some u =>
      if toLowerStr u.scheme != "http" && toLowerStr u.scheme != "https" then
        some .badScheme
      else if u.host == "" then some .emptyHost
      else if containsSub u.host "//" then some .badHostChars
      else
        match env.parseIP u.hostname with
        | some ip =>
          if isPrivateIP ip then some .privateAddress
          else validateURLTail u
        | none =>
          match env.lookupIP u.hostname with
          | none => some .resolveFailed
          | some ips =>
            if ips.length == 0 then some .noAddresses
            else if ips.any isPrivateIP then some .resolvedPrivate
            else validateURLTail u

/-! ### Repository partial updates and the remaining service operations -/

/-- `repo.UserUpdateInfo`: a partial field set; `none` leaves the field
untouched. -/
structure UserUpdateInfo where
  userID : String
  password : Option String := none
  phone : Option String := none
  phoneVerified : Option Bool := none
  email : Option String := none
  emailVerified : Option Bool := none
  avatar : Option String := none
  deriving Repr, DecidableEq

/-- Modelled from the spec: the repository implementation is not in the
sources; §6 gives `update(identifier, partial-field-set)` — apply the
set fields of the update to one record. -/
def applyUpdate (info : UserUpdateInfo) (u : User) : User :=
  { u with
    password := info.password.getD u.password
    phone := info.phone.getD u.phone
    phoneVerified := info.phoneVerified.getD u.phoneVerified
    email := info.email.getD u.email
    emailVerified := info.emailVerified.getD u.emailVerified
    avatar := info.avatar.getD u.avatar }

/-- `repo.UpdateUser`: apply the partial update to every record whose
identifier matches. -/
def updateUser (users : List User) (info : UserUpdateInfo) : List User :=
  users.map (fun u => if u.userID == info.userID then applyUpdate info u else u)

/-- How many contact methods an account has bound. -/
def contactCount (u : User) : Nat :=
  (if u.phone != "" then 1 else 0) + (if u.email != "" then 1 else 0)

/-- `Login` (source lines 76-140): empty parameter check, account
lookup with `ErrUserNotFound` collapsed to `ErrCredentialsIncorrect`,
password comparison via the hasher oracle, then token issuance.  The
state is not mutated, so only the result is returned. -/
def login (env : Env) (s : SvcState) (account accountType password : String) :
    Except Err (User × String) :=
  if account == "" || accountType == "" || password == "" then
    .error .invalidParams
  else
    match findUserByAccount s.users account accountType with
    | .error e => if e == .userNotFound then .error .credentialsIncorrect else .error e
    | .ok user =>
      match env.comparePassword user.password password with
      | none => .error .internalError
      | some false => .error .credentialsIncorrect
      | some true =>
        match env.generateToken user.userID with
        | none => .error .internalError
        | some token => .ok (user, token)

/-- `types.RegisterParams`. -/
structure RegisterParams where
  userName : String
  account : String
  accountType : String
  code : String
  password : String
  deriving Repr, DecidableEq

/-- `Register` (source lines 143-220): the basic check covers account,
account type and password only; an existing account is
`ErrUserAlreadyExists`; then the verification code is consumed, the
password policy checked, an ID generated, the password hashed, and the
account persisted with the contact field of the account type set and
marked verified.  The created account is active (modelled from the
spec §3: registration creates the account with status `active`; the
`entity` package with the status constants is not in the sources). -/
def register (env : Env) (s : SvcState) (req : RegisterParams) :
    Except Err User × SvcState :=
  if req.account == "" || req.accountType == "" || req.password == "" then
    (.error .invalidParams, s)
  else
    match findUserByAccount s.users req.account req.accountType with
    | .ok _ => (.error .userAlreadyExists, s)
    | .error e =>
      if e != .userNotFound then (.error e, s)
      else
        match verifyCode s req.account req.accountType req.code with
        | (.error e, s1) => (.error e, s1)
        | (.ok _, s1) =>
          match env.validatePasswordStrength req.password with
          | some e => (.error e, s1)
          | none =>
            match env.generateID with
            | none => (.error .internalError, s1)
            | some userID =>
              match env.hashPassword req.password with
              | none => (.error .internalError, s1)
              | some hash =>
                let user : User :=
                  { userID := userID
                    userName := req.userName
                    password := hash
                    phone := if req.accountType == "phone" then req.account else ""
                    phoneVerified := req.accountType == "phone"
                    email := if req.accountType == "email" then req.account else ""
                    emailVerified := req.accountType == "email"
                    status := .active
                    avatar := "" }
                (.ok user, { s1 with users := s1.users ++ [user] })

/-- `checkAccountAvailabilityForUpdate` (source lines 485-508): an
unbound identifier is available (`none`); an identifier bound to the
caller's own account is available; one bound to a different account is
`ErrAccountAlreadyInUse`; any lookup failure other than not-found is
`ErrInternalError`. -/
def checkAccountAvailabilityForUpdate (users : List User) (currentUser : User)
    (account accountType : String) : Option Err :=
  match findUserByAccount users account accountType with
  | .error e => if e == .userNotFound then none else some .internalError
  | .ok existingUser =>
    if existingUser.userID != currentUser.userID then some .accountAlreadyInUse
    else none

/-- The purpose-dependent validation at the head of
`SendVerificationCode` (source lines 360-408): `register` demands an
unused identifier, `reset_password` an existing one, `change_account`
an authenticated caller and availability, and any other purpose skips
validation.  `none` means validation passed. -/
def sendCodePurposeCheck (users : List User) (ctxUser : Option User)
    (account accountType purpose : String) : Option Err :=
  match purpose with
  | "register" =>
    match findUserByAccount users account accountType with
    | .error e => if e == .userNotFound then none else some .internalError
    | .ok _ => some .accountAlreadyInUse
  | "reset_password" =>
    match findUserByAccount users account accountType with
    | .error e => if e == .userNotFound then some .userNotFound else some .internalError
    | .ok _ => none
  | "change_account" =>
    match ctxUser with
    | none => some .permissionDenied
    | some currentUser =>
      checkAccountAvailabilityForUpdate users currentUser account accountType
  | _ => none

/-- `SendVerificationCode` (source lines 351-448): parameter check,
purpose validation, then store the freshly sampled code under the
identifier-derived key with a 10-minute expiry and dispatch it over
the channel of the account type; dispatch failure deletes the stored
code and returns `ErrInternalError`; an unsupported account type is
`ErrUnsupportedAccountType`.  The random 6-digit sample of
`generateVerificationCode` is passed in as `genCode`, and the ambient
authenticated user of `entity.GetUser(ctx)` as `ctxUser`. -/
def sendVerificationCode (env : Env) (s : SvcState) (ctxUser : Option User)
    (genCode account accountType purpose : String) :
    Except Err Unit × SvcState :=
  if account == "" || accountType == "" then (.error .invalidParams, s)
  else
    match sendCodePurposeCheck s.users ctxUser account accountType purpose with
    | some e => (.error e, s)
    | none =>
      let key := redisVerificationCodeKey account
      let store1 := setRedis key genCode s.store
      match accountType with
      | "email" =>
        if env.sendEmailCode account genCode then (.ok (), { s with store := store1 })
        else (.error .internalError, { s with store := delRedis key store1 })
      | "phone" =>
        if env.sendSMSCode account genCode then (.ok (), { s with store := store1 })
        else (.error .internalError, { s with store := delRedis key store1 })
      | _ => (.error .unsupportedAccountType, { s with store := store1 })

/-- `GetUserByID` (source lines 321-348): empty ID is
`ErrInvalidParams`, a missing record `ErrUserNotFound`, and a record
whose status is not active `ErrPermissionDenied`. -/
def getUserByID (users : List User) (userID : String) : Except Err User :=
  if userID == "" then .error .invalidParams
  else
    match findByID users userID with
    | none => .error .userNotFound
    | some user =>
      if user.status != .active then .error .permissionDenied
      else .ok user

/-- `UpdateAvatar` (source lines 680-712): parameter check, URL
validation (a validation failure is wrapped in `ErrInvalidParams`),
the status-checking lookup of `getUserByID`, then a partial update of
the avatar field alone. -/
def updateAvatar (env : Env) (s : SvcState) (userID avatarURL : String) :
    Except Err Unit × SvcState :=
  if userID == "" || avatarURL == "" then (.error .invalidParams, s)
  else
    match validateAvatarURL env avatarURL with
    | some _ => (.error .invalidParams, s)
    | none =>
      match getUserByID s.users userID with
      | .error e => (.error e, s)
      | .ok _ =>
        let info : UserUpdateInfo := { userID := userID, avatar := some avatarURL }
        (.ok (), { s with users := updateUser s.users info })

/-- `types.UpdateAccountParams`. -/
structure UpdateAccountParams where
  account : String
  accountType : String
  code : String
  password : String
  deriving Repr, DecidableEq

/-- `UpdateAccount` (source lines 511-590): parameter check,
authenticated caller required, a password is mandatory when the caller
has none, the code sent to the new identifier is consumed, the new
identifier must be available, and then the contact field, its verified
flag and (optionally) a new password hash are written in one partial
update.  (The `req == nil` guard has no counterpart: requests are
values here.) -/
def updateAccount (env : Env) (s : SvcState) (ctxUser : Option User)
    (req : UpdateAccountParams) : Except Err String × SvcState :=
  if req.account == "" || req.accountType == "" || req.code == "" then
    (.error .invalidParams, s)
  else
    match ctxUser with
    | none => (.error .permissionDenied, s)
    | some currentUser =>
      if currentUser.password == "" && req.password == "" then
        (.error .passwordRequired, s)
      else
        match verifyCode s req.account req.accountType req.code with
        | (.error e, s1) => (.error e, s1)
        | (.ok _, s1) =>
          match checkAccountAvailabilityForUpdate s1.users currentUser
              req.account req.accountType with
          | some e => (.error e, s1)
          | none =>
            let base : UserUpdateInfo := { userID := currentUser.userID }
            match
              (match req.accountType with
               | "phone" =>
                 some { base with phone := some req.account, phoneVerified := some true }
               | "email" =>
                 some { base with email := some req.account, emailVerified := some true }
               | _ => none : Option UserUpdateInfo) with
            | none => (.error .unsupportedAccountType, s1)
            | some info0 =>
              if req.password != "" then
                match env.validatePasswordStrength req.password with
                | some e => (.error e, s1)
                | none =>
                  match env.hashPassword req.password with
                  | none => (.error .internalError, s1)
                  | some hash =>
                    let info := { info0 with password := some hash }
                    (.ok req.account, { s1 with users := updateUser s1.users info })
              else
                (.ok req.account, { s1 with users := updateUser s1.users info0 })

/-- `types.UnbindAccountParams`. -/
structure UnbindAccountParams where
  account : String
  accountType : String
  deriving Repr, DecidableEq

/-- `UnbindAccount` (source lines 593-666): parameter check,
authenticated caller required; the caller's bound value for the
requested type must exist and match the request (`ErrInvalidParams`
otherwise); the other contact must remain (`ErrCannotUnbindOnlyContact`
otherwise); then the field and its verified flag are cleared in one
partial update. -/
def unbindAccount (s : SvcState) (ctxUser : Option User)
    (req : UnbindAccountParams) : Except Err Unit × SvcState :=
  if req.account == "" || req.accountType == "" then (.error .invalidParams, s)
  else
    match ctxUser with
    | none => (.error .permissionDenied, s)
    | some currentUser =>
      match
        (match req.accountType with
         | "phone" => some (currentUser.phone, currentUser.email)
         | "email" => some (currentUser.email, currentUser.phone)
         | _ => none : Option (String × String)) with
      | none => (.error .unsupportedAccountType, s)
      | some (currentContact, otherContact) =>
        if currentContact == "" then (.error .invalidParams, s)
        else if req.account != currentContact then (.error .invalidParams, s)
        else if otherContact == "" then (.error .cannotUnbindOnlyContact, s)
        else
          let base : UserUpdateInfo := { userID := currentUser.userID }
          let info :=
            if req.accountType == "phone" then
              { base with phone := some "", phoneVerified := some false }
            else
              { base with email := some "", emailVerified := some false }
          (.ok (), { s with users := updateUser s.users info })

/-! ### Concrete environments for witnesses and counterexamples -/

/-- A parse of `http://example.com/a.png`, as `url.Parse` produces it. -/
def demoParsedURL : ParsedURL :=
  { scheme := "http", host := "example.com", hostname := "example.com"
    path := "/a.png", rawQuery := "", queryParams := [], fragment := "" }

/-- A parse of `http://169.254.169.254/meta`. -/
def metadataParsedURL : ParsedURL :=
  { scheme := "http", host := "169.254.169.254", hostname := "169.254.169.254"
    path := "/meta", rawQuery := "", queryParams := [], fragment := "" }

/-- A parse of `http://two.example/a.png` (a domain resolving to two
addresses, the second of them private). -/
def twoAddrParsedURL : ParsedURL :=
  { scheme := "http", host := "two.example", hostname := "two.example"
    path := "/a.png", rawQuery := "", queryParams := [], fragment := "" }

/-- A parse of `http://bad.example/a.png` (a domain that fails to
resolve). -/
def badHostParsedURL : ParsedURL :=
  { scheme := "http", host := "bad.example", hostname := "bad.example"
    path := "/a.png", rawQuery := "", queryParams := [], fragment := "" }

/-- An environment whose collaborators all succeed: deterministic
hashing and token issuance, dispatch that always delivers, a URL
parser knowing the two URLs above, an IP-literal parser that
recognizes the metadata address, and a resolver mapping
`example.com` to its public address and failing on `bad.example`. -/
def demoEnv : Env :=
  { validatePasswordStrength := fun _ => none
    hashPassword := fun p => some ("hash:" ++ p)
    comparePassword := fun h p => some (h == "hash:" ++ p)
    generateToken := fun uid => some ("token:" ++ uid)
    generateID := some "uid-1"
    sendEmailCode := fun _ _ => true
    sendSMSCode := fun _ _ => true
    parseURL := fun s =>
      if s == "http://example.com/a.png" then some demoParsedURL
      else if s == "http://169.254.169.254/meta" then some metadataParsedURL
      else if s == "http://two.example/a.png" then some twoAddrParsedURL
      else if s == "http://bad.example/a.png" then some badHostParsedURL
      else none
    parseIP := fun h =>
      if h == "169.254.169.254" then some (.v4 169 254 169 254) else none
    lookupIP := fun h =>
      if h == "example.com" then some [.v4 93 184 216 34]
      else if h == "two.example" then some [.v4 93 184 216 34, .v4 10 0 0 5]
      else none }

/-- `demoEnv` with an email dispatcher that always fails. -/
def failDispatchEnv : Env :=
  { demoEnv with sendEmailCode := fun _ _ => false }

/-! ### Claim theorems -/

/-- C1: a verification code is strictly single-use — when `VerifyCode`
succeeds, the stored record is deleted as part of that call (the store
no longer holds a code under the identifier's key), so an immediately
subsequent `VerifyCode` with the same identifier and the identical
code string fails with `ErrVerificationCodeIncorrect`, whatever
account type the second call carries. -/
theorem verifyCode_single_use (s : SvcState)
    (account accountType code accountType' : String)
    (h : (verifyCode s account accountType code).fst = .ok ()) :
    getRedis (redisVerificationCodeKey account)
      (verifyCode s account accountType code).snd.store = "" ∧
    (verifyCode (verifyCode s account accountType code).snd
      account accountType' code).fst = .error .verificationCodeIncorrect := by
  by_cases h1 : (account == "" || code == "") = true
  · simp [verifyCode, h1] at h
  · by_cases h2 : (getRedis (redisVerificationCodeKey account) s.store == "") = true
    · simp [verifyCode, h1, h2] at h
    · by_cases h3 :
        (getRedis (redisVerificationCodeKey account) s.store != code) = true
      · simp [verifyCode, h1, h2, h3] at h
      · refine ⟨?_, ?_⟩
        · simp [verifyCode, h1, h2, h3, getRedis_delRedis_self]
        · simp [verifyCode, h1, h2, h3, getRedis_delRedis_self]

/-- Witness for C1: in a store holding code `123456` for `a@b.com`,
verifying succeeds, and the theorem yields both the deletion and the
failure of the immediate replay. -/
theorem verifyCode_single_use_witness :
    getRedis (redisVerificationCodeKey "a@b.com")
      (verifyCode ⟨[], [("verification_code:a@b.com", "123456")]⟩
        "a@b.com" "email" "123456").snd.store = "" ∧
    (verifyCode (verifyCode ⟨[], [("verification_code:a@b.com", "123456")]⟩
        "a@b.com" "email" "123456").snd "a@b.com" "email" "123456").fst
      = .error .verificationCodeIncorrect :=
  verifyCode_single_use ⟨[], [("verification_code:a@b.com", "123456")]⟩
    "a@b.com" "email" "123456" "email" (by decide)

/-- C9: `VerifyCode` never reads its account-type argument: two calls
agreeing on identifier and code but differing in account type return
the same result and leave the same store behind. -/
theorem verifyCode_ignores_accountType (s : SvcState)
    (account accountType accountType' code : String) :
    verifyCode s account accountType code =
      verifyCode s account accountType' code := rfl

/-- C4: with non-empty parameters and a supported account type,
`Login` against a state where no account matches the (type, identifier)
pair returns `ErrCredentialsIncorrect` — the very error returned on a
password mismatch for an existing account (second conjunct) — and,
the result being an `Except.error`, carries neither an account nor a
token. -/
theorem login_unknown_account_credentials_incorrect (env : Env) (s : SvcState)
    (account accountType password : String)
    (ha : account ≠ "")
    (ht : accountType = "phone" ∨ accountType = "email")
    (hp : password ≠ "") :
    ((accountType = "phone" → findByPhone s.users account = none) →
     (accountType = "email" → findByEmail s.users account = none) →
     login env s account accountType password = .error .credentialsIncorrect) ∧
    (∀ user, findUserByAccount s.users account accountType = .ok user →
      env.comparePassword user.password password = some false →
      login env s account accountType password = .error .credentialsIncorrect) := by
  have ha' : (account == "") = false := by simp [ha]
  have hp' : (password == "") = false := by simp [hp]
  have ht' : (accountType == "") = false := by
    rcases ht with h | h <;> simp [h]
  constructor
  · intro hphone hemail
    rcases ht with h | h
    · simp [login, ha', hp', ht', findUserByAccount, h, hphone h]
    · simp [login, ha', hp', ht', findUserByAccount, h, hemail h]
  · intro user hfind hcmp
    simp [login, ha', hp', ht', hfind, hcmp]

/-- Witness for C4: no account exists, so logging in as `a@b.com` by
email yields `ErrCredentialsIncorrect` rather than a not-found error. -/
theorem login_unknown_account_credentials_incorrect_witness :
    login demoEnv ⟨[], []⟩ "a@b.com" "email" "wrong"
      = .error .credentialsIncorrect :=
  (login_unknown_account_credentials_incorrect demoEnv ⟨[], []⟩
      "a@b.com" "email" "wrong" (by decide) (Or.inr rfl) (by decide)).1
    (by decide) (by decide)

/-- The address ranges the SSRF claim enumerates: loopback, link-local,
private, multicast, unspecified, or anywhere in `0.0.0.0/8`. -/
def ipInClaimedRanges (ip : IP) : Bool :=
  ipIsLoopback ip || ipIsLinkLocalUnicast ip || ipIsPrivate ip ||
    ipIsMulticast ip || ipIsUnspecified ip || ipInZeroNet ip

lemma claimedRanges_isPrivateIP (ip : IP) (h : ipInClaimedRanges ip = true) :
    isPrivateIP ip = true := by
  unfold ipInClaimedRanges at h
  unfold isPrivateIP
  by_cases h4 : (ipIsLoopback ip || ipIsLinkLocalUnicast ip || ipIsPrivate ip ||
      ipIsMulticast ip) = true
  · simp [h4]
  · simp only [h4, Bool.false_eq_true, if_false]
    simp only [Bool.or_eq_true] at h h4
    push_neg at h4
    rcases h with ((((hl | hll) | hpr) | hm) | hu) | hz
    · exact absurd hl h4.1.1.1
    · exact absurd hll h4.1.1.2
    · exact absurd hpr h4.1.2
    · exact absurd hm h4.2
    · cases hip : ipTo4 ip with
      | some q =>
        obtain ⟨a, b, c, d⟩ := q
        simp only [ipIsUnspecified, hip] at hu
        simp only [Bool.and_eq_true, beq_iff_eq] at hu
        simp [hu.1.1.1]
      | none =>
        simpa [hip] using hu
    · cases hip : ipTo4 ip with
      | some q =>
        obtain ⟨a, b, c, d⟩ := q
        simp only [ipInZeroNet, hip] at hz
        simp [hz]
      | none =>
        simp [ipInZeroNet, hip] at hz

lemma validateAvatarURL_none_ssrf (env : Env) (url : String) (u : ParsedURL)
    (hp : env.parseURL url = some u)
    (hnone : validateAvatarURL env url = none) :
    (match env.parseIP u.hostname with
     | some ip => isPrivateIP ip = false
     | none => ∃ ips, env.lookupIP u.hostname = some ips ∧
         ips.any isPrivateIP = false) := by
  unfold validateAvatarURL at hnone
  split at hnone
  · exact Option.noConfusion hnone
  · split at hnone
    · rename_i heq
      rw [hp] at heq
      exact Option.noConfusion heq
    · rename_i u' heq
      rw [hp] at heq
      injection heq with heq'
      subst heq'
      split at hnone
      · exact Option.noConfusion hnone
      · split at hnone
        · exact Option.noConfusion hnone
        · split at hnone
          · exact Option.noConfusion hnone
          · split at hnone
            · rename_i ip hip
              split at hnone
              · exact Option.noConfusion hnone
              · rename_i hpriv
                simpa using hpriv
            · rename_i hip
              split at hnone
              · exact Option.noConfusion hnone
              · rename_i ips hips
                rw [hips]
                split at hnone
                · exact Option.noConfusion hnone
                · split at hnone
                  · exact Option.noConfusion hnone
                  · rename_i hany
                    exact ⟨ips, rfl, by simpa using hany⟩

/-- C5: the SSRF boundary of `validateAvatarURL`.  For any oracle
outcomes: a URL whose host is an IP literal in a claimed range is never
accepted; a URL with a domain host is never accepted when any (not
merely the first) resolved address lies in a claimed range; and a URL
whose domain host fails to resolve is never accepted. -/
theorem validateAvatarURL_ssrf_boundary (env : Env) (url : String)
    (u : ParsedURL) (hp : env.parseURL url = some u) :
    (∀ ip, env.parseIP u.hostname = some ip → ipInClaimedRanges ip = true →
      validateAvatarURL env url ≠ none) ∧
    (∀ ips ip, env.parseIP u.hostname = none →
      env.lookupIP u.hostname = some ips → ip ∈ ips →
      ipInClaimedRanges ip = true → validateAvatarURL env url ≠ none) ∧
    (env.parseIP u.hostname = none → env.lookupIP u.hostname = none →
      validateAvatarURL env url ≠ none) := by
  refine ⟨?_, ?_, ?_⟩
  · intro ip hip hbad hnone
    have hred := validateAvatarURL_none_ssrf env url u hp hnone
    rw [hip] at hred
    simp only at hred
    rw [claimedRanges_isPrivateIP ip hbad] at hred
    exact Bool.noConfusion hred
  · intro ips ip hnoip hips hmem hbad hnone
    have hred := validateAvatarURL_none_ssrf env url u hp hnone
    rw [hnoip] at hred
    simp only at hred
    obtain ⟨ips', hips', hany⟩ := hred
    rw [hips] at hips'
    injection hips' with heq
    subst heq
    have : ips.any isPrivateIP = true :=
      List.any_eq_true.mpr ⟨ip, hmem, claimedRanges_isPrivateIP ip hbad⟩
    rw [this] at hany
    exact Bool.noConfusion hany
  · intro hnoip hnores hnone
    have hred := validateAvatarURL_none_ssrf env url u hp hnone
    rw [hnoip] at hred
    simp only at hred
    obtain ⟨ips', hips', _⟩ := hred
    rw [hnores] at hips'
    exact Option.noConfusion hips'

/-- Witness for C5: the cloud-metadata IP literal is rejected as an
IP-literal host; `two.example`, whose second resolved address is
`10.0.0.5`, is rejected on an address beyond the first; and the
unresolvable `bad.example` is rejected. -/
theorem validateAvatarURL_ssrf_boundary_witness :
    validateAvatarURL demoEnv "http://169.254.169.254/meta" ≠ none ∧
    validateAvatarURL demoEnv "http://two.example/a.png" ≠ none ∧
    validateAvatarURL demoEnv "http://bad.example/a.png" ≠ none :=
  ⟨(validateAvatarURL_ssrf_boundary demoEnv "http://169.254.169.254/meta"
      metadataParsedURL (by decide)).1 (.v4 169 254 169 254) (by decide) (by decide),
   (validateAvatarURL_ssrf_boundary demoEnv "http://two.example/a.png"
      twoAddrParsedURL (by decide)).2.1 [.v4 93 184 216 34, .v4 10 0 0 5]
      (.v4 10 0 0 5) (by decide) (by decide) (by decide) (by decide),
   (validateAvatarURL_ssrf_boundary demoEnv "http://bad.example/a.png"
      badHostParsedURL (by decide)).2.2 (by decide) (by decide)⟩

/-- C10: a stored account whose lifecycle status is not active makes
`GetUserByID` return `ErrPermissionDenied` (not the not-found error),
and consequently `UpdateAvatar` on that account — even with an avatar
URL that passes validation — returns `ErrPermissionDenied` and leaves
the state untouched (no repository update). -/
theorem inactive_user_permission_denied (env : Env) (s : SvcState)
    (userID avatarURL : String) (u : User)
    (hid : userID ≠ "") (hfind : findByID s.users userID = some u)
    (hst : u.status ≠ .active) (hurl : avatarURL ≠ "")
    (hval : validateAvatarURL env avatarURL = none) :
    getUserByID s.users userID = .error .permissionDenied ∧
    updateAvatar env s userID avatarURL = (.error .permissionDenied, s) := by
  have hid' : (userID == "") = false := by simp [hid]
  have hurl' : (avatarURL == "") = false := by simp [hurl]
  have hst' : (u.status != UserStatus.active) = true := by simp [hst]
  have hget : getUserByID s.users userID = .error .permissionDenied := by
    simp [getUserByID, hid', hfind, hst']
  exact ⟨hget, by simp [updateAvatar, hid', hurl', hval, hget]⟩

/-- A disabled account, for the C10 witness. -/
def disabledUser : User :=
  { userID := "u9", userName := "bob", password := "hash:pw", phone := ""
    phoneVerified := false, email := "b@b.com", emailVerified := true
    status := .disabled, avatar := "" }

/-- Witness for C10: looking up the disabled account and updating its
avatar with an accepted URL both yield `ErrPermissionDenied`, with no
state change. -/
theorem inactive_user_permission_denied_witness :
    getUserByID [disabledUser] "u9" = .error .permissionDenied ∧
    updateAvatar demoEnv ⟨[disabledUser], []⟩ "u9" "http://example.com/a.png"
      = (.error .permissionDenied, ⟨[disabledUser], []⟩) :=
  inactive_user_permission_denied demoEnv ⟨[disabledUser], []⟩ "u9"
    "http://example.com/a.png" disabledUser (by decide) (by decide)
    (by decide) (by decide) (by decide)

/-- The partial update `UnbindAccount` issues for a phone unbind. -/
def unbindPhoneInfo (cu : User) : UserUpdateInfo :=
  { userID := cu.userID, phone := some "", phoneVerified := some false }

/-- The partial update `UnbindAccount` issues for an email unbind. -/
def unbindEmailInfo (cu : User) : UserUpdateInfo :=
  { userID := cu.userID, email := some "", emailVerified := some false }

/-- C6: `UnbindAccount`, for an authenticated caller whose request
targets the bound contact value of the requested type (and whose
repository record agrees with the ambient user record): when the other
contact is empty — exactly one contact bound — it fails with
`ErrCannotUnbindOnlyContact` and changes nothing; when both are bound
it succeeds and the caller's stored record afterwards has exactly the
requested field and its verified flag cleared, all else untouched,
leaving exactly one contact method bound. -/
theorem unbindAccount_contact_invariant (s : SvcState) (cu : User)
    (req : UnbindAccountParams)
    (ht : req.accountType = "phone" ∨ req.accountType = "email")
    (ha : req.account ≠ "")
    (hmatch : req.account =
      (if req.accountType == "phone" then cu.phone else cu.email))
    (huniq : ∀ v ∈ s.users, v.userID = cu.userID → v = cu) :
    ((if req.accountType == "phone" then cu.email else cu.phone) = "" →
      unbindAccount s (some cu) req = (.error .cannotUnbindOnlyContact, s)) ∧
    ((if req.accountType == "phone" then cu.email else cu.phone) ≠ "" →
      (unbindAccount s (some cu) req).fst = .ok () ∧
      ∀ u ∈ (unbindAccount s (some cu) req).snd.users, u.userID = cu.userID →
        contactCount u = 1 ∧
        (req.accountType = "phone" →
          u = { cu with phone := "", phoneVerified := false }) ∧
        (req.accountType = "email" →
          u = { cu with email := "", emailVerified := false })) := by
  have ha' : (req.account == "") = false := by simp [ha]
  rcases ht with htp | hte
  · have hmatch' : req.account = cu.phone := by simpa [htp] using hmatch
    have hph : (cu.phone == "") = false := by
      rw [hmatch'] at ha; simp [ha]
    constructor
    · intro hother
      have hother' : cu.email = "" := by simpa [htp] using hother
      simp [unbindAccount, ha', htp, hph, hmatch', hother']
    · intro hother
      have hother' : cu.email ≠ "" := by simpa [htp] using hother
      have hot : (cu.email == "") = false := by simp [hother']
      have hrun : unbindAccount s (some cu) req =
          (.ok (), { s with users := updateUser s.users (unbindPhoneInfo cu) }) := by
        simp [unbindAccount, unbindPhoneInfo, ha', htp, hph, hmatch', hot]
      refine ⟨by rw [hrun], ?_⟩
      intro u hu huid
      rw [hrun] at hu
      obtain ⟨v, hv, hveq⟩ := List.mem_map.mp hu
      by_cases hb : v.userID = cu.userID
      · have hvcu : v = cu := huniq v hv hb
        rw [hvcu] at hveq
        simp only [unbindPhoneInfo, beq_self_eq_true, if_true] at hveq
        rw [← hveq]
        refine ⟨?_, fun _ => rfl, fun habs => absurd (htp.symm.trans habs) (by decide)⟩
        simp [contactCount, applyUpdate, hot, hother']
      · exfalso
        have hbn : (v.userID == cu.userID) = false := by simp [hb]
        simp only [unbindPhoneInfo] at hveq
        rw [hbn] at hveq
        simp only [Bool.false_eq_true, if_false] at hveq
        rw [← hveq] at huid
        exact hb huid
  · have hmatch' : req.account = cu.email := by simpa [hte] using hmatch
    have hem : (cu.email == "") = false := by
      rw [hmatch'] at ha; simp [ha]
    constructor
    · intro hother
      have hother' : cu.phone = "" := by simpa [hte] using hother
      simp [unbindAccount, ha', hte, hem, hmatch', hother']
    · intro hother
      have hother' : cu.phone ≠ "" := by simpa [hte] using hother
      have hot : (cu.phone == "") = false := by simp [hother']
      have hrun : unbindAccount s (some cu) req =
          (.ok (), { s with users := updateUser s.users (unbindEmailInfo cu) }) := by
        simp [unbindAccount, unbindEmailInfo, ha', hte, hem, hmatch', hot]
      refine ⟨by rw [hrun], ?_⟩
      intro u hu huid
      rw [hrun] at hu
      obtain ⟨v, hv, hveq⟩ := List.mem_map.mp hu
      by_cases hb : v.userID = cu.userID
      · have hvcu : v = cu := huniq v hv hb
        rw [hvcu] at hveq
        simp only [unbindEmailInfo, beq_self_eq_true, if_true] at hveq
        rw [← hveq]
        refine ⟨?_, fun habs => absurd (hte.symm.trans habs) (by decide), fun _ => rfl⟩
        simp [contactCount, applyUpdate, hot, hother']
      · exfalso
        have hbn : (v.userID == cu.userID) = false := by simp [hb]
        simp only [unbindEmailInfo] at hveq
        rw [hbn] at hveq
        simp only [Bool.false_eq_true, if_false] at hveq
        rw [← hveq] at huid
        exact hb huid

/-- An account with both contact methods bound. -/
def twoContactUser : User :=
  { userID := "u1", userName := "alice", password := "hash:pw"
    phone := "13800000000", phoneVerified := true, email := "a@b.com"
    emailVerified := true, status := .active, avatar := "" }

/-- An account with only an email bound. -/
def oneContactUser : User :=
  { userID := "u2", userName := "carol", password := "hash:pw"
    phone := "", phoneVerified := false, email := "c@c.com"
    emailVerified := true, status := .active, avatar := "" }

/-- Witness for C6: unbinding the sole email of `oneContactUser` fails
with `ErrCannotUnbindOnlyContact`, while unbinding the phone of
`twoContactUser`, who also has an email, succeeds. -/
theorem unbindAccount_contact_invariant_witness :
    unbindAccount ⟨[oneContactUser], []⟩ (some oneContactUser)
      ⟨"c@c.com", "email"⟩ = (.error .cannotUnbindOnlyContact, ⟨[oneContactUser], []⟩) ∧
    (unbindAccount ⟨[twoContactUser], []⟩ (some twoContactUser)
      ⟨"13800000000", "phone"⟩).fst = .ok () :=
  ⟨(unbindAccount_contact_invariant ⟨[oneContactUser], []⟩ oneContactUser
      ⟨"c@c.com", "email"⟩ (Or.inr rfl) (by decide) (by decide) (by decide)).1
      (by decide),
   ((unbindAccount_contact_invariant ⟨[twoContactUser], []⟩ twoContactUser
      ⟨"13800000000", "phone"⟩ (Or.inl rfl) (by decide) (by decide) (by decide)).2
      (by decide)).1⟩


/-- The state after `SendVerificationCode` stores the sampled code. -/
def storedCodeState (s : SvcState) (account genCode : String) : SvcState :=
  { s with store := setRedis (redisVerificationCodeKey account) genCode s.store }

/-- The state after the dispatch-failure rollback deletes the code it
had just stored. -/
def rolledBackState (s : SvcState) (account genCode : String) : SvcState :=
  { s with store := delRedis (redisVerificationCodeKey account) (setRedis (redisVerificationCodeKey account) genCode s.store) }

lemma sendVerificationCode_ok_run (env : Env) (s : SvcState) (ctxUser : Option User)
    (genCode account accountType purpose : String)
    (h : (sendVerificationCode env s ctxUser genCode account accountType purpose).fst
      = .ok ()) :
    sendVerificationCode env s ctxUser genCode account accountType purpose =
      (.ok (), storedCodeState s account genCode) := by
  unfold sendVerificationCode at h
  split at h
  · exact Except.noConfusion h
  · rename_i hco
    split at h
    · exact Except.noConfusion h
    · rename_i hpc
      split at h
      · split at h
        · rename_i hd
          simp only [Bool.or_eq_true, beq_iff_eq, not_or] at hco
          simp [sendVerificationCode, storedCodeState, hco.1, hpc, hd]
        · exact Except.noConfusion h
      · split at h
        · rename_i hd
          simp only [Bool.or_eq_true, beq_iff_eq, not_or] at hco
          simp [sendVerificationCode, storedCodeState, hco.1, hpc, hd]
        · exact Except.noConfusion h
      · exact Except.noConfusion h

/-- C2 (amended): the store key is derived from the identifier alone,
so after any successful `SendVerificationCode` the identifier's key
holds exactly the new code — whatever purpose this or any earlier
request carried — and every other key is untouched: at most one active
code per identifier. -/
theorem sendVerificationCode_key_per_identifier (env : Env) (s : SvcState)
    (ctxUser : Option User) (genCode account accountType purpose : String)
    (h : (sendVerificationCode env s ctxUser genCode account accountType purpose).fst
      = .ok ()) :
    getRedis (redisVerificationCodeKey account)
      (sendVerificationCode env s ctxUser genCode account accountType purpose).snd.store
      = genCode ∧
    ∀ k, k ≠ redisVerificationCodeKey account →
      getRedis k
        (sendVerificationCode env s ctxUser genCode account accountType purpose).snd.store
        = getRedis k s.store := by
  rw [sendVerificationCode_ok_run env s ctxUser genCode account accountType purpose h]
  exact ⟨getRedis_setRedis_self _ _ _,
    fun k hk => getRedis_setRedis_ne _ k _ _ hk⟩

/-- Counterexample for C2: the key does not distinguish purposes.  Two
requests for `a@b.com` under distinct unknown purposes: the second
(code `222222`) overwrites the first (code `111111`), so the first
code no longer verifies while the second does — a code issued for one
purpose both overwrites and satisfies a code flow of a different
purpose on the same identifier. -/
theorem sendVerificationCode_purpose_key_counterexample :
    (verifyCode (sendVerificationCode demoEnv
        (sendVerificationCode demoEnv ⟨[], []⟩ none "111111" "a@b.com" "email"
          "purposeA").snd
        none "222222" "a@b.com" "email" "purposeB").snd
      "a@b.com" "email" "111111").fst = .error .verificationCodeIncorrect ∧
    (verifyCode (sendVerificationCode demoEnv
        (sendVerificationCode demoEnv ⟨[], []⟩ none "111111" "a@b.com" "email"
          "purposeA").snd
        none "222222" "a@b.com" "email" "purposeB").snd
      "a@b.com" "email" "222222").fst = .ok () := by decide

/-- Witness for C2 (amended): a successful send for registration of a
fresh address leaves exactly its code under the identifier's key. -/
theorem sendVerificationCode_key_per_identifier_witness :
    getRedis (redisVerificationCodeKey "a@b.com")
      (sendVerificationCode demoEnv ⟨[], []⟩ none "123456" "a@b.com" "email"
        "register").snd.store = "123456" :=
  (sendVerificationCode_key_per_identifier demoEnv ⟨[], []⟩ none "123456"
    "a@b.com" "email" "register" (by decide)).1

lemma sendVerificationCode_store_cases (env : Env) (s : SvcState)
    (ctxUser : Option User) (genCode account accountType purpose : String) :
    (sendVerificationCode env s ctxUser genCode account accountType purpose).snd.store
        = s.store ∨
    sendVerificationCode env s ctxUser genCode account accountType purpose
        = (.error .unsupportedAccountType, storedCodeState s account genCode) ∨
    (sendVerificationCode env s ctxUser genCode account accountType purpose).fst
        = .ok () ∨
    ((sendVerificationCode env s ctxUser genCode account accountType purpose).fst
        = .error .internalError ∧
      (sendVerificationCode env s ctxUser genCode account accountType purpose).snd.store
        = (rolledBackState s account genCode).store) := by
  unfold sendVerificationCode
  split
  · exact Or.inl rfl
  · split
    · exact Or.inl rfl
    · split
      · split
        · exact Or.inr (Or.inr (Or.inl rfl))
        · exact Or.inr (Or.inr (Or.inr ⟨rfl, rfl⟩))
      · split
        · exact Or.inr (Or.inr (Or.inl rfl))
        · exact Or.inr (Or.inr (Or.inr ⟨rfl, rfl⟩))
      · exact Or.inr (Or.inl rfl)

lemma sendVerificationCode_dispatch_fail_run (env : Env) (s : SvcState)
    (ctxUser : Option User) (genCode account accountType purpose : String)
    (ha : account ≠ "")
    (hpc : sendCodePurposeCheck s.users ctxUser account accountType purpose = none)
    (hch : (accountType = "email" ∧ env.sendEmailCode account genCode = false) ∨
           (accountType = "phone" ∧ env.sendSMSCode account genCode = false)) :
    sendVerificationCode env s ctxUser genCode account accountType purpose
      = (.error .internalError, rolledBackState s account genCode) := by
  have ha' : (account == "") = false := by simp [ha]
  rcases hch with ⟨he, hd⟩ | ⟨he, hd⟩ <;> subst he <;>
    simp [sendVerificationCode, rolledBackState, ha', hpc, hd]

/-- C3 (amended): on dispatch failure `SendVerificationCode` deletes
the code it stored and returns `ErrInternalError` (second conjunct);
and on every error other than `ErrUnsupportedAccountType` the
identifier's key is left unchanged or empty (first conjunct).  The
unsupported-account-type error path, reachable only under an
unrecognized purpose, is the one path that returns after storing
without deleting. -/
theorem sendVerificationCode_rollback (env : Env) (s : SvcState)
    (ctxUser : Option User) (genCode account accountType purpose : String) :
    (∀ e, (sendVerificationCode env s ctxUser genCode account accountType purpose).fst
        = .error e → e ≠ .unsupportedAccountType →
      getRedis (redisVerificationCodeKey account)
          (sendVerificationCode env s ctxUser genCode account accountType purpose).snd.store
        = getRedis (redisVerificationCodeKey account) s.store ∨
      getRedis (redisVerificationCodeKey account)
          (sendVerificationCode env s ctxUser genCode account accountType purpose).snd.store
        = "") ∧
    (((accountType = "email" ∧ env.sendEmailCode account genCode = false) ∨
      (accountType = "phone" ∧ env.sendSMSCode account genCode = false)) →
      account ≠ "" →
      sendCodePurposeCheck s.users ctxUser account accountType purpose = none →
      (sendVerificationCode env s ctxUser genCode account accountType purpose).fst
        = .error .internalError ∧
      getRedis (redisVerificationCodeKey account)
        (sendVerificationCode env s ctxUser genCode account accountType purpose).snd.store
        = "") := by
  constructor
  · intro e he hne
    rcases sendVerificationCode_store_cases env s ctxUser genCode account
        accountType purpose with hc | hc | hc | hc
    · exact Or.inl (by rw [hc])
    · rw [hc] at he
      exact absurd (Except.error.inj he).symm hne
    · rw [he] at hc
      exact Except.noConfusion hc
    · refine Or.inr ?_
      rw [hc.2]
      exact getRedis_delRedis_self _ _
  · intro hch ha hpc
    rw [sendVerificationCode_dispatch_fail_run env s ctxUser genCode account
        accountType purpose ha hpc hch]
    exact ⟨rfl, getRedis_delRedis_self _ _⟩

/-- Counterexample for C3: with an unrecognized purpose and the
unsupported account type `fax`, the call stores the code, then returns
`ErrUnsupportedAccountType` leaving the (undeliverable) code active in
the store — an error path that does not roll back. -/
theorem sendVerificationCode_leaves_code_counterexample :
    (sendVerificationCode demoEnv ⟨[], []⟩ none "123456" "a@b.com" "fax"
      "other").fst = .error .unsupportedAccountType ∧
    getRedis (redisVerificationCodeKey "a@b.com")
      (sendVerificationCode demoEnv ⟨[], []⟩ none "123456" "a@b.com" "fax"
        "other").snd.store = "123456" := by decide

/-- Witness for C3 (amended): with an email dispatcher that fails, a
send for registering a fresh address returns `ErrInternalError` and
the stored code is rolled back. -/
theorem sendVerificationCode_rollback_witness :
    (sendVerificationCode failDispatchEnv ⟨[], []⟩ none "123456" "a@b.com"
      "email" "register").fst = .error .internalError ∧
    getRedis (redisVerificationCodeKey "a@b.com")
      (sendVerificationCode failDispatchEnv ⟨[], []⟩ none "123456" "a@b.com"
        "email" "register").snd.store = "" :=
  (sendVerificationCode_rollback failDispatchEnv ⟨[], []⟩ none "123456"
    "a@b.com" "email" "register").2 (Or.inl ⟨rfl, rfl⟩) (by decide) (by decide)

/-- An account bound only to the email `d@d.com`, distinct from
`twoContactUser`. -/
def otherUser : User :=
  { userID := "u3", userName := "dave", password := "hash:pw2", phone := ""
    phoneVerified := false, email := "d@d.com", emailVerified := true
    status := .active, avatar := "" }

/-- Counterexample for C7: registration of an identifier already bound
to an existing account is rejected with `ErrUserAlreadyExists`, which
is a different error from `ErrAccountAlreadyInUse` — the claim's
"account-already-in-use for every registration" does not hold. -/
theorem register_duplicate_error_counterexample :
    (register demoEnv ⟨[twoContactUser], [("verification_code:a@b.com", "123456")]⟩
      ⟨"x", "a@b.com", "email", "123456", "Abcdef12!"⟩).fst
      = .error .userAlreadyExists ∧
    Err.userAlreadyExists ≠ Err.accountAlreadyInUse := by decide

/-- C7 (amended): `UpdateAccount` rejects a new identifier bound to a
different account with `ErrAccountAlreadyInUse` and accepts one bound
to the caller's own account (re-verifying one's own contact succeeds);
registration rejects an identifier bound to any existing account, but
with `ErrUserAlreadyExists` rather than the account-already-in-use
error. -/
theorem account_in_use_rejection (env : Env) (s : SvcState) (cu : User)
    (req : UpdateAccountParams)
    (ht : req.accountType = "phone" ∨ req.accountType = "email")
    (ha : req.account ≠ "") (hcode : req.code ≠ "")
    (hstore : getRedis (redisVerificationCodeKey req.account) s.store = req.code)
    (hpw : cu.password ≠ "") (hreqpw : req.password = "") :
    (∀ other, findUserByAccount s.users req.account req.accountType = .ok other →
      other.userID ≠ cu.userID →
      (updateAccount env s (some cu) req).fst = .error .accountAlreadyInUse) ∧
    (∀ own, findUserByAccount s.users req.account req.accountType = .ok own →
      own.userID = cu.userID →
      (updateAccount env s (some cu) req).fst = .ok req.account) ∧
    (∀ rq : RegisterParams, rq.account ≠ "" → rq.accountType ≠ "" →
      rq.password ≠ "" →
      ∀ ex, findUserByAccount s.users rq.account rq.accountType = .ok ex →
      (register env s rq).fst = .error .userAlreadyExists) := by
  have ha' : (req.account == "") = false := by simp [ha]
  have hc' : (req.code == "") = false := by simp [hcode]
  have ht' : (req.accountType == "") = false := by
    rcases ht with h | h <;> simp [h]
  have hpw' : (cu.password == "") = false := by simp [hpw]
  have hvc : verifyCode s req.account req.accountType req.code =
      (.ok (), { s with store := delRedis (redisVerificationCodeKey req.account) s.store }) := by
    simp [verifyCode, ha', hc', hstore]
  refine ⟨?_, ?_, ?_⟩
  · intro other hfind hne
    have hav : checkAccountAvailabilityForUpdate s.users cu req.account
        req.accountType = some .accountAlreadyInUse := by
      simp [checkAccountAvailabilityForUpdate, hfind, hne]
    simp [updateAccount, ha', hc', ht', hpw', hvc, hav]
  · intro own hfind hown
    have hav : checkAccountAvailabilityForUpdate s.users cu req.account
        req.accountType = none := by
      simp [checkAccountAvailabilityForUpdate, hfind, hown]
    rcases ht with h | h <;> rw [h] at hvc hav <;>
      simp [updateAccount, ha', hc', ht', hpw', h, hvc, hav, hreqpw]
  · intro rq h1 h2 h3 ex hfind
    have h1' : (rq.account == "") = false := by simp [h1]
    have h2' : (rq.accountType == "") = false := by simp [h2]
    have h3' : (rq.password == "") = false := by simp [h3]
    simp [register, h1', h2', h3', hfind]

/-- Witness for C7 (amended): `otherUser` cannot take `a@b.com`, which
belongs to `twoContactUser`; `twoContactUser` can re-verify their own
`a@b.com`; registering `a@b.com` again fails with
`ErrUserAlreadyExists`. -/
theorem account_in_use_rejection_witness :
    (updateAccount demoEnv
      ⟨[twoContactUser, otherUser], [("verification_code:a@b.com", "123456")]⟩
      (some otherUser) ⟨"a@b.com", "email", "123456", ""⟩).fst
      = .error .accountAlreadyInUse ∧
    (updateAccount demoEnv
      ⟨[twoContactUser], [("verification_code:a@b.com", "123456")]⟩
      (some twoContactUser) ⟨"a@b.com", "email", "123456", ""⟩).fst
      = .ok "a@b.com" ∧
    (register demoEnv ⟨[twoContactUser], [("verification_code:a@b.com", "123456")]⟩
      ⟨"y", "a@b.com", "email", "222222", "Abcdef12!"⟩).fst
      = .error .userAlreadyExists :=
  ⟨(account_in_use_rejection demoEnv
      ⟨[twoContactUser, otherUser], [("verification_code:a@b.com", "123456")]⟩
      otherUser ⟨"a@b.com", "email", "123456", ""⟩ (Or.inr rfl) (by decide)
      (by decide) (by decide) (by decide) rfl).1 twoContactUser (by decide)
      (by decide),
   (account_in_use_rejection demoEnv
      ⟨[twoContactUser], [("verification_code:a@b.com", "123456")]⟩
      twoContactUser ⟨"a@b.com", "email", "123456", ""⟩ (Or.inr rfl) (by decide)
      (by decide) (by decide) (by decide) rfl).2.1 twoContactUser (by decide)
      rfl,
   (account_in_use_rejection demoEnv
      ⟨[twoContactUser], [("verification_code:a@b.com", "123456")]⟩ twoContactUser
      ⟨"a@b.com", "email", "123456", ""⟩ (Or.inr rfl) (by decide) (by decide)
      (by decide) (by decide) rfl).2.2
      ⟨"y", "a@b.com", "email", "222222", "Abcdef12!"⟩ (by decide) (by decide)
      (by decide) twoContactUser (by decide)⟩

/-- The account the empty-username registration creates. -/
def emptyNameUser : User :=
  { userID := "uid-1", userName := "", password := "hash:Abcdef12!"
    phone := "", phoneVerified := false, email := "a@b.com"
    emailVerified := true, status := .active, avatar := "" }

/-- Counterexample for C8: `Register` with an empty username but all
other fields valid succeeds and creates the account (with an empty
display name) — the claim that any empty input among the five fails
with `ErrInvalidParams` and creates no account is false for the
username. -/
theorem register_empty_username_counterexample :
    register demoEnv ⟨[], [("verification_code:a@b.com", "123456")]⟩
      ⟨"", "a@b.com", "email", "123456", "Abcdef12!"⟩
      = (.ok emptyNameUser, ⟨[emptyNameUser], []⟩) := by decide

/-- C8 (amended): `Register` fails with `ErrInvalidParams`, creating
nothing, when the account identifier, the account type, or the
password is empty; an empty verification code also fails with
`ErrInvalidParams` (through the code check) when the identifier is
unregistered; the username is not checked. -/
theorem register_missing_fields (env : Env) (s : SvcState)
    (req : RegisterParams) :
    ((req.account = "" ∨ req.accountType = "" ∨ req.password = "") →
      register env s req = (.error .invalidParams, s)) ∧
    (req.code = "" → req.account ≠ "" → req.password ≠ "" →
      (req.accountType = "phone" → findByPhone s.users req.account = none) →
      (req.accountType = "email" → findByEmail s.users req.account = none) →
      (req.accountType = "phone" ∨ req.accountType = "email") →
      register env s req = (.error .invalidParams, s)) := by
  constructor
  · intro h
    rcases h with h | h | h <;> simp [register, h]
  · intro hcode ha hp hphone hemail ht
    have ha' : (req.account == "") = false := by simp [ha]
    have hp' : (req.password == "") = false := by simp [hp]
    rcases ht with h | h
    · simp [register, ha', hp', h, findUserByAccount, hphone h, verifyCode,
        hcode]
    · simp [register, ha', hp', h, findUserByAccount, hemail h, verifyCode,
        hcode]

/-- Witness for C8 (amended): an empty identifier and an empty code
each yield `ErrInvalidParams` with the state unchanged. -/
theorem register_missing_fields_witness :
    register demoEnv ⟨[], []⟩ ⟨"x", "", "email", "1", "Abcdef12!"⟩
      = (.error .invalidParams, ⟨[], []⟩) ∧
    register demoEnv ⟨[], []⟩ ⟨"x", "a@b.com", "email", "", "Abcdef12!"⟩
      = (.error .invalidParams, ⟨[], []⟩) :=
  ⟨(register_missing_fields demoEnv ⟨[], []⟩
      ⟨"x", "", "email", "1", "Abcdef12!"⟩).1 (Or.inl rfl),
   (register_missing_fields demoEnv ⟨[], []⟩
      ⟨"x", "a@b.com", "email", "", "Abcdef12!"⟩).2 rfl (by decide) (by decide)
      (by decide) (by decide) (Or.inr rfl)⟩
